import Mathlib

/-!
Verification development for the pywemo action-invocation and
session-lifecycle subsystem (files `pywemo/httpconfig.py` and
`pywemo/ouimeaux_device/api/service.py`), as a shallow embedding in Lean.

External collaborators (the HTTP transport, the aiohttp client sessions,
the xml.etree parser and the xsd description parser) are modelled as
opaque values and oracles, exactly at the boundaries where the source
consumes them.
-/

namespace PyWemo

/-! ### HTTP Session Registry — `pywemo/httpconfig.py`

The module holds two globals:

* `_async_client_session : aiohttp.ClientSession` — note this is a bare
  annotation, the name is never bound at module load; we model the
  variable as an `Option ClientSession`, `none` meaning "unbound", and
  reading the unbound name raises `NameError`.
* `_initialized_async_client_session = False` — a flag recording that a
  previous call created a session internally (field `internalFlag`
  below, renamed for the development).

A `close()` call on a session is modelled as appending that session to
the `closed` log.  Fresh internally-created sessions are numbered from
the `nextId` counter; caller-supplied sessions carry their own ids.
-/

/-- An aiohttp `ClientSession`, tagged by who created it. -/
inductive ClientSession where
  | internal (id : Nat)
  | supplied (id : Nat)
deriving DecidableEq, Repr

/-- The process-wide state of `pywemo/httpconfig.py`. -/
structure RegistryState where
  /-- the `_async_client_session` global; `none` = the name is unbound -/
  asyncClientSession : Option ClientSession
  /-- the `_initialized_async_client_session` global -/
  internalFlag : Bool
  /-- log of every session on which `close()` was called -/
  closed : List ClientSession
  /-- id source for `aiohttp.ClientSession()` constructions -/
  nextId : Nat
deriving DecidableEq, Repr

/-- Process start: `_async_client_session` unbound, flag `False`. -/
def RegistryState.start : RegistryState :=
  { asyncClientSession := none, internalFlag := false, closed := [], nextId := 0 }

/-- The Python exceptions that can cross the boundaries we model
(`aiohttpClientError` covers the `aiohttp.ClientError` hierarchy,
`asyncioTimeoutError` the `asyncio.TimeoutError` raised on an aiohttp
request timeout). -/
inductive PyError where
  | nameError
  | typeError
  | parseError
  | indexError
  | aiohttpClientError
  | asyncioTimeoutError
  | actionException (msg : String)
deriving DecidableEq, Repr

/-- Embedding of `_get_async_client_session()` (imported by service.py as
`get_client_session`).  The body is
`if _async_client_session is None: initialize_async_client_session()`
followed by `return _async_client_session`; when the global is unbound,
evaluating the `is None` test itself raises `NameError`, and when it is
bound it is never `None` (the initializer always binds a real session),
so the lazy-creation branch can never execute. -/
def get_async_client_session (st : RegistryState) :
    Except PyError (ClientSession × RegistryState) :=
  match st.asyncClientSession with
  | none => .error .nameError
  | some s => .ok (s, st)

/-- Embedding of `initialize_async_client_session(client_session=None)`.  Closes the
current session when `_initialized_async_client_session` is set, then
installs the caller-supplied session (leaving the flag unchanged) or
creates a fresh internal one and sets the flag. -/
def init_async_client_session (client_session : Option ClientSession)
    (st : RegistryState) : Except PyError RegistryState :=
  match
    (if st.internalFlag then
      match st.asyncClientSession with
      | none => Except.error PyError.nameError
      | some s => Except.ok { st with closed := st.closed ++ [s] }
    else Except.ok st) with
  | .error e => .error e
  | .ok st1 =>
    match client_session with
    | some cs => .ok { st1 with asyncClientSession := some cs }
    | none =>
        .ok { st1 with
          asyncClientSession := some (.internal st1.nextId),
          nextId := st1.nextId + 1,
          internalFlag := true }

/-- Embedding of `_cleanup_async_client_session()`, registered with `atexit`. -/
def cleanup_async_client_session (st : RegistryState) :
    Except PyError RegistryState :=
  if st.internalFlag then
    match st.asyncClientSession with
    | none => .error .nameError
    | some s => .ok { st with closed := st.closed ++ [s] }
  else .ok st

/-- The operations a process can perform on the registry. -/
inductive RegistryOp where
  | initDefault
  | initSupplied (id : Nat)
  | shutdownHook
deriving DecidableEq, Repr

/-- Run one registry operation. -/
def runRegistryOp (op : RegistryOp) (st : RegistryState) :
    Except PyError RegistryState :=
  match op with
  | .initDefault => init_async_client_session none st
  | .initSupplied i => init_async_client_session (some (.supplied i)) st
  | .shutdownHook => cleanup_async_client_session st

/-- Run a sequence of registry operations from a given state. -/
def runRegistryOps (ops : List RegistryOp) (st : RegistryState) :
    Except PyError RegistryState :=
  match ops with
  | [] => .ok st
  | op :: rest =>
    match runRegistryOp op st with
    | .error e => .error e
    | .ok st1 => runRegistryOps rest st1

/-- C1: evaluation of the code at the failing trace.  After
`initialize_async_client_session()` followed by
`initialize_async_client_session(client_session=s7)` (s7 caller-supplied),
the internal flag is still `true` (the code never clears it), and a third
default reinitialization closes the caller-supplied session s7 — so a
caller-supplied client *is* closed by a later reinitialization, and a
reinitialization performed while a caller-supplied client is installed
closes a client, contrary to the claim.  The shutdown hook after the
first two calls closes s7 as well. -/
theorem C1_supplied_session_closed :
    (runRegistryOps [.initDefault, .initSupplied 7] RegistryState.start =
      .ok { asyncClientSession := some (.supplied 7), internalFlag := true,
            closed := [.internal 0], nextId := 1 }) ∧
    (runRegistryOps [.initDefault, .initSupplied 7, .initDefault]
        RegistryState.start =
      .ok { asyncClientSession := some (.internal 1), internalFlag := true,
            closed := [.internal 0, .supplied 7], nextId := 2 }) ∧
    (runRegistryOps [.initDefault, .initSupplied 7, .shutdownHook]
        RegistryState.start =
      .ok { asyncClientSession := some (.supplied 7), internalFlag := true,
            closed := [.internal 0, .supplied 7], nextId := 1 }) := by
  refine ⟨rfl, rfl, rfl⟩

/-- C5: evaluation of the code at the failing state.  In the state where
no initialization has ever occurred, `_get_async_client_session()` raises
`NameError` (the module global `_async_client_session` is declared with a
bare annotation and never bound, so even the `is None` check fails)
instead of lazily creating a default client. -/
theorem C5_get_session_name_error :
    get_async_client_session RegistryState.start =
      .error .nameError := rfl

/-! ### Action invocation — `pywemo/ouimeaux_device/api/service.py`

`MAX_RETRIES = 3`, `REQUEST_TEMPLATE` (a fixed SOAP envelope with holes
for the action name, the service type and the argument elements).

The device collaborator is consumed through `name`, `host`, `port`,
`rediscovery_enabled` and `reconnect_with_device()`; we record the
number of `reconnect_with_device()` invocations.

Each HTTP transport is an oracle mapping the attempt index to its
outcome.  The synchronous path POSTs via `requests`, whose failures are
`requests.exceptions.RequestException` instances; the asynchronous path
POSTs via the shared `aiohttp` client, whose failures are
`aiohttp.ClientError` subclasses or `asyncio.TimeoutError` — never
`requests` exceptions, although that is the only type the `except`
clause of `Action.call` names. -/

/-- The device collaborator interface consumed by `service.py`. -/
structure Device where
  name : String
  host : String
  port : Nat
  rediscovery_enabled : Bool
deriving DecidableEq, Repr

/-- A parsed XML element: tag, text, immediate children
(`xml.etree` view used by `__build_post_response_dict`). -/
inductive Xml where
  | elem (tag : String) (text : Option String) (children : List Xml)

def Xml.tag : Xml → String
  | .elem t _ _ => t

def Xml.text : Xml → Option String
  | .elem _ x _ => x

def Xml.children : Xml → List Xml
  | .elem _ _ c => c

/-- The textual content of an HTTP response body, as seen by the
`xml.etree` parser: either well-formed XML with the given root element,
or malformed. -/
inductive Body where
  | wellFormed (root : Xml)
  | malformed

/-- A Python value handed to `__build_post_response_dict`: either the
`requests.Response` *object* itself (what the synchronous path passes)
or a text string holding the body (what the asynchronous path passes). -/
inductive PyVal where
  | responseObj (body : Body)
  | str (body : Body)

/-- Model of `xml.etree.cElementTree.fromstring`.  It accepts only `str`/`bytes`:
handed a `requests.Response` object it raises `TypeError`; handed
malformed text it raises a parse error. -/
def et_fromstring : PyVal → Except PyError Xml
  | .responseObj _ => .error .typeError
  | .str (.wellFormed root) => .ok root
  | .str .malformed => .error .parseError

/-- Embedding of `Action.__build_post_response_dict(response_body)`: parse, descend
`getchildren()[0].getchildren()[0]` (an empty child list makes the `[0]`
index raise `IndexError`), and map each immediate child to
`(tag, text)`. -/
def build_post_response_dict (v : PyVal) :
    Except PyError (List (String × Option String)) :=
  match et_fromstring v with
  | .error e => .error e
  | .ok root =>
    match root.children with
    | [] => .error .indexError
    | c0 :: _ =>
      match c0.children with
      | [] => .error .indexError
      | c1 :: _ => .ok (c1.children.map fun e => (e.tag, e.text))

/-- Outcome of one `requests.post` attempt (synchronous path), indexed
by attempt number: a successful round trip, or a raised
`requests.exceptions.RequestException`. -/
inductive TransportOutcome where
  | success (respBody : Body)
  | requestException

/-- The exceptions a failing `aiohttp` POST raises: an
`aiohttp.ClientError` subclass (connection refused, reset, DNS failure)
or `asyncio.TimeoutError` (the 10-second timeout).  `requests` and
`aiohttp` have disjoint exception hierarchies, so no aiohttp failure is
a `requests.exceptions.RequestException`. -/
inductive AioExc where
  | clientError
  | timeoutError
deriving DecidableEq, Repr

/-- The `isinstance(e, requests.exceptions.RequestException)` test that
the `except requests.exceptions.RequestException` clause of
`Action.call` performs, evaluated on the exceptions an aiohttp POST can
raise: it holds of none of them. -/
def is_requests_RequestException : AioExc → Bool
  | .clientError => false
  | .timeoutError => false

/-- The Python exception value that propagates when an aiohttp failure
is not caught. -/
def AioExc.toPyError : AioExc → PyError
  | .clientError => .aiohttpClientError
  | .timeoutError => .asyncioTimeoutError

/-- Outcome of one aiohttp POST attempt (asynchronous path), indexed by
attempt number: a successful round trip carrying the response text, or
a raised aiohttp/asyncio exception. -/
inductive AioTransportOutcome where
  | success (respBody : Body)
  | raised (e : AioExc)

def MAX_RETRIES : Nat := 3

/-- The exception message of `Action.__max_retries_exceeded`,
`"Error communicating with {0} after {1} attempts. Giving up."` formatted
with the device name and `MAX_RETRIES`. -/
def max_retries_exceeded_msg (dev : Device) : String :=
  "Error communicating with " ++ dev.name ++ " after " ++
    toString MAX_RETRIES ++ " attempts. Giving up."

deriving instance DecidableEq for Except

/-- Observable outcome of one `Action` invocation. -/
structure CallResult where
  /-- the returned mapping, or the exception that propagated -/
  result : Except PyError (List (String × Option String))
  /-- number of `reconnect_with_device()` invocations -/
  reconnects : Nat
  /-- number of HTTP POST attempts performed -/
  attemptsMade : Nat
deriving DecidableEq, Repr

/-- The retry loop of `Action.__call__` (synchronous path).  `fuel`
counts the remaining iterations of `for attempt in range(MAX_RETRIES)`,
`attempt` the current index.  On transport success the `Response` object
itself is handed to `__build_post_response_dict`; exceptions other than
`requests.exceptions.RequestException` are not caught; a caught
transport failure runs `__handle_connection_exception`, which invokes
`reconnect_with_device()` exactly when `rediscovery_enabled`; after the
loop `__max_retries_exceeded` raises `ActionException`. -/
def call_sync_loop (dev : Device) (transport : Nat → TransportOutcome) :
    Nat → Nat → Nat → CallResult
  | 0, attempt, recon =>
    { result := .error (.actionException (max_retries_exceeded_msg dev)),
      reconnects := recon, attemptsMade := attempt }
  | fuel + 1, attempt, recon =>
    match transport attempt with
    | .success respBody =>
      match build_post_response_dict (.responseObj respBody) with
      | .ok d => { result := .ok d, reconnects := recon, attemptsMade := attempt + 1 }
      | .error e => { result := .error e, reconnects := recon, attemptsMade := attempt + 1 }
    | .requestException =>
      call_sync_loop dev transport fuel (attempt + 1)
        (recon + if dev.rediscovery_enabled then 1 else 0)

/-- Embedding of `Action.__call__(**kwargs)` (synchronous invocation), as observed
through the transport oracle. -/
def Action_call (dev : Device) (transport : Nat → TransportOutcome) : CallResult :=
  call_sync_loop dev transport MAX_RETRIES 0 0

/-- The retry loop of `Action.call` (asynchronous path).  Same
3-iteration loop shape as the synchronous path, handing the *text* of
the response (`await response.text()`) to `__build_post_response_dict`
on success; on a raised exception `e`, the
`except requests.exceptions.RequestException` clause catches `e` —
running `__handle_connection_exception` and retrying — exactly when
`isinstance(e, requests.exceptions.RequestException)` holds, which is
never the case for the aiohttp/asyncio exceptions an aiohttp POST
raises, so the exception propagates out of the call; the
`__max_retries_exceeded` branch after the loop is consequently
unreachable through failures, like in the source. -/
def call_async_loop (dev : Device) (transport : Nat → AioTransportOutcome) :
    Nat → Nat → Nat → CallResult
  | 0, attempt, recon =>
    { result := .error (.actionException (max_retries_exceeded_msg dev)),
      reconnects := recon, attemptsMade := attempt }
  | fuel + 1, attempt, recon =>
    match transport attempt with
    | .success respBody =>
      match build_post_response_dict (.str respBody) with
      | .ok d => { result := .ok d, reconnects := recon, attemptsMade := attempt + 1 }
      | .error e => { result := .error e, reconnects := recon, attemptsMade := attempt + 1 }
    | .raised e =>
      if is_requests_RequestException e then
        call_async_loop dev transport fuel (attempt + 1)
          (recon + if dev.rediscovery_enabled then 1 else 0)
      else
        { result := .error e.toPyError, reconnects := recon,
          attemptsMade := attempt + 1 }

/-- Embedding of `Action.call(**kwargs)` (asynchronous invocation): first fetches the
shared client via `get_client_session()` — which raises `NameError` when
the registry global is unbound — then runs the retry loop over the
aiohttp transport. -/
def Action_call_async (reg : RegistryState) (dev : Device)
    (transport : Nat → AioTransportOutcome) : CallResult :=
  match reg.asyncClientSession with
  | none => { result := .error .nameError, reconnects := 0, attemptsMade := 0 }
  | some _ => call_async_loop dev transport MAX_RETRIES 0 0

/-! ### Request rendering — `REQUEST_TEMPLATE` and `Action.__call__`

`REQUEST_TEMPLATE.format(action=..., service=..., args=...)` substitutes
into the fixed envelope template; `body.strip()` (Python `str.strip()`
with no argument, removing leading and trailing whitespace) is applied
at the `requests.post` call site. -/

/-- Python `str.isspace` on the characters removed by `str.strip()`. -/
def isPySpace (c : Char) : Bool :=
  c = ' ' || c = '\t' || c = '\n' || c = '\r' || c = '\x0b' || c = '\x0c'

/-- Python `s.strip()`: drop leading and trailing whitespace. -/
def pyStrip (s : String) : String :=
  ⟨((s.data.dropWhile isPySpace).reverse.dropWhile isPySpace).reverse⟩

/-- Python `s.strip("/")`: drop leading and trailing slashes. -/
def pyStripSlashes (s : String) : String :=
  ⟨((s.data.dropWhile (· = '/')).reverse.dropWhile (· = '/')).reverse⟩

/-- Python `s.rstrip("/")`: drop trailing slashes. -/
def pyRStripSlashes (s : String) : String :=
  ⟨(s.data.reverse.dropWhile (· = '/')).reverse⟩

/-- The expression `"\n".join("<{0}>{1}</{0}>".format(arg, value) for arg, value in
kwargs.items())` — one `<argName>value</argName>` element per keyword
argument, in call order. -/
def joinArgs (kwargs : List (String × String)) : String :=
  String.intercalate "\n"
    (kwargs.map fun p => "<" ++ p.1 ++ ">" ++ p.2 ++ "</" ++ p.1 ++ ">")

/-- Embedding of `REQUEST_TEMPLATE.format(action=action, service=service, args=args)`:
the template literal of service.py lines 15–24 with its three holes
substituted. -/
def REQUEST_TEMPLATE_format (action service args : String) : String :=
  "\n<?xml version=\"1.0\" encoding=\"utf-8\"?>\n<s:Envelope xmlns:s=\"http://schemas.xmlsoap.org/soap/envelope/\" s:encodingStyle=\"http://schemas.xmlsoap.org/soap/encoding/\">\n<s:Body>\n<u:"
    ++ action ++ " xmlns:u=\"" ++ service ++ "\">\n" ++ args ++ "\n</u:"
    ++ action ++ ">\n</s:Body>\n</s:Envelope>\n"

/-- The document POSTed by `Action.__call__`: the rendered template,
stripped (`body.strip()` at the `requests.post` call). -/
def sync_request_body (action service : String)
    (kwargs : List (String × String)) : String :=
  pyStrip (REQUEST_TEMPLATE_format action service (joinArgs kwargs))

/-- The request payload handed to the HTTP layer: the synchronous path
sends a text document, the asynchronous path sends `data=kwargs`, the
keyword-argument mapping itself, as form data. -/
inductive Payload where
  | text (s : String)
  | form (kv : List (String × String))
deriving DecidableEq, Repr

/-- What `Action.__call__` passes as the POST data. -/
def sync_sent_payload (action service : String)
    (kwargs : List (String × String)) : Payload :=
  .text (sync_request_body action service kwargs)

/-- What `Action.call` passes as the POST data (`data=kwargs`). -/
def async_sent_payload (kwargs : List (String × String)) : Payload :=
  .form kwargs

/-! ### Stepping and exhaustion lemmas for the retry loops -/

lemma call_sync_loop_zero (dev : Device) (transport : Nat → TransportOutcome)
    (attempt recon : Nat) :
    call_sync_loop dev transport 0 attempt recon =
      { result := .error (.actionException (max_retries_exceeded_msg dev)),
        reconnects := recon, attemptsMade := attempt } := rfl

lemma call_sync_loop_fail_step {dev : Device} {transport : Nat → TransportOutcome}
    (fuel : Nat) {attempt recon : Nat} (h : transport attempt = .requestException) :
    call_sync_loop dev transport (fuel + 1) attempt recon =
      call_sync_loop dev transport fuel (attempt + 1)
        (recon + if dev.rediscovery_enabled then 1 else 0) := by
  simp only [call_sync_loop, h]

lemma call_sync_loop_success_step {dev : Device} {transport : Nat → TransportOutcome}
    (fuel : Nat) {attempt recon : Nat} {b : Body} (h : transport attempt = .success b) :
    call_sync_loop dev transport (fuel + 1) attempt recon =
      match build_post_response_dict (.responseObj b) with
      | .ok d => { result := .ok d, reconnects := recon, attemptsMade := attempt + 1 }
      | .error e => { result := .error e, reconnects := recon, attemptsMade := attempt + 1 } := by
  simp only [call_sync_loop, h]

lemma call_async_loop_success_step {dev : Device}
    {transport : Nat → AioTransportOutcome}
    (fuel : Nat) {attempt recon : Nat} {b : Body} (h : transport attempt = .success b) :
    call_async_loop dev transport (fuel + 1) attempt recon =
      match build_post_response_dict (.str b) with
      | .ok d => { result := .ok d, reconnects := recon, attemptsMade := attempt + 1 }
      | .error e => { result := .error e, reconnects := recon, attemptsMade := attempt + 1 } := by
  simp only [call_async_loop, h]

/-- An aiohttp transport failure on any attempt is not caught by the
`except requests.exceptions.RequestException` clause: it propagates at
once, with no further attempt and no reconnect invocation. -/
lemma call_async_loop_raised_step {dev : Device}
    {transport : Nat → AioTransportOutcome}
    (fuel : Nat) {attempt recon : Nat} {e : AioExc} (h : transport attempt = .raised e) :
    call_async_loop dev transport (fuel + 1) attempt recon =
      { result := .error e.toPyError, reconnects := recon,
        attemptsMade := attempt + 1 } := by
  cases e <;> simp [call_async_loop, h, is_requests_RequestException]

/-- When every attempt raises a transport error, the synchronous call
raises `ActionException` with 3 attempts made, reconnecting after every
failed attempt (3 times) when rediscovery is enabled. -/
lemma sync_exhaust_eq (dev : Device) (transport : Nat → TransportOutcome)
    (h : ∀ i, i < MAX_RETRIES → transport i = .requestException) :
    Action_call dev transport =
      { result := .error (.actionException (max_retries_exceeded_msg dev)),
        reconnects := if dev.rediscovery_enabled then 3 else 0,
        attemptsMade := 3 } := by
  have h0 := h 0 (by norm_num [MAX_RETRIES])
  have h1 := h 1 (by norm_num [MAX_RETRIES])
  have h2 := h 2 (by norm_num [MAX_RETRIES])
  show call_sync_loop dev transport (2 + 1) 0 0 = _
  rw [call_sync_loop_fail_step 2 h0]
  norm_num
  show call_sync_loop dev transport (1 + 1) 1 _ = _
  rw [call_sync_loop_fail_step 1 h1]
  norm_num
  show call_sync_loop dev transport (0 + 1) 2 _ = _
  rw [call_sync_loop_fail_step 0 h2]
  norm_num
  rw [call_sync_loop_zero]
  cases hB : dev.rediscovery_enabled <;> simp [hB]

/-- The exhaustion message spelled out: it names the device and reports
exactly `3` attempts. -/
lemma msg_spelled (dev : Device) :
    max_retries_exceeded_msg dev =
      "Error communicating with " ++ dev.name ++
        " after 3 attempts. Giving up." := by
  apply String.ext
  simp only [max_retries_exceeded_msg, String.data_append, List.append_assoc,
    List.append_cancel_left_eq]
  decide

/-! ### Concrete inputs for counterexamples and witnesses -/

/-- A device with rediscovery enabled. -/
def dev_enabled : Device :=
  { name := "WeMo Switch", host := "192.168.1.5", port := 49153,
    rediscovery_enabled := true }

/-- A transport for which every attempt raises
`requests.exceptions.RequestException`. -/
def transport_all_fail : Nat → TransportOutcome := fun _ => .requestException

/-- C2 counterexample: with rediscovery enabled and 3 consecutive
transport failures, `reconnect_with_device()` is invoked 3 times — once
after every failed attempt, including the final one — not 2 times as the
claim states. -/
theorem C2_counterexample :
    (Action_call dev_enabled transport_all_fail).reconnects = 3 ∧
    ¬ (Action_call dev_enabled transport_all_fail).reconnects = 2 := by
  decide

/-- C2 (amended): for every sequence of 3 consecutive transport failures,
the synchronous invocation terminates by raising an `ActionException`
whose message names the device and reports exactly 3 attempts, after
performing exactly 3 transport attempts; the reconnection hook is
invoked exactly 3 times when rediscovery is enabled (after every failed
attempt, including the final one) and exactly 0 times when rediscovery
is disabled. -/
theorem C2_amended_retry_exhaustion (dev : Device)
    (transport : Nat → TransportOutcome)
    (h : ∀ i, i < MAX_RETRIES → transport i = .requestException) :
    Action_call dev transport =
      { result := .error (.actionException (max_retries_exceeded_msg dev)),
        reconnects := if dev.rediscovery_enabled then 3 else 0,
        attemptsMade := 3 } ∧
    max_retries_exceeded_msg dev =
      "Error communicating with " ++ dev.name ++
        " after 3 attempts. Giving up." :=
  ⟨sync_exhaust_eq dev transport h, msg_spelled dev⟩

/-- C2 witness: the amended theorem applied to a concrete device and a
concretely all-failing transport. -/
theorem C2_witness :
    (∀ i, i < MAX_RETRIES → transport_all_fail i = .requestException) ∧
    Action_call dev_enabled transport_all_fail =
      { result := .error (.actionException (max_retries_exceeded_msg dev_enabled)),
        reconnects := 3, attemptsMade := 3 } ∧
    max_retries_exceeded_msg dev_enabled =
      "Error communicating with WeMo Switch after 3 attempts. Giving up." := by
  have h : ∀ i, i < MAX_RETRIES → transport_all_fail i = .requestException :=
    fun i _ => rfl
  have := C2_amended_retry_exhaustion dev_enabled transport_all_fail h
  refine ⟨h, ?_, ?_⟩
  · rw [this.1]; decide
  · rw [this.2]; decide

/-- The response envelope of the claim:
`<s:Envelope><s:Body><u:GetBinaryStateResponse><Foo>bar</Foo><Baz>42</Baz>
</u:GetBinaryStateResponse></s:Body></s:Envelope>`. -/
def c3_response_root : Xml :=
  .elem "s:Envelope" none
    [.elem "s:Body" none
      [.elem "u:GetBinaryStateResponse" none
        [.elem "Foo" (some "bar") [], .elem "Baz" (some "42") []]]]

/-- A transport whose first attempt succeeds with that envelope. -/
def c3_transport : Nat → TransportOutcome :=
  fun _ => .success (.wellFormed c3_response_root)

/-- C3: evaluation of the code at the failing input.  On a successful
round trip whose response body is the well-formed envelope with result
children `<Foo>bar</Foo><Baz>42</Baz>`, the synchronous invocation does
*not* return the mapping: `Action.__call__` hands the `requests.Response`
object itself (not its body text) to `et.fromstring`, which raises
`TypeError`.  The second conjunct shows the extraction routine itself
would produce exactly `{"Foo": "bar", "Baz": "42"}` if it were given the
body text, pinning the slip to the argument passed at line 73. -/
theorem C3_response_object_type_error :
    Action_call dev_enabled c3_transport =
      { result := .error .typeError, reconnects := 0, attemptsMade := 1 } ∧
    build_post_response_dict (.str (.wellFormed c3_response_root)) =
      .ok [("Foo", some "bar"), ("Baz", some "42")] :=
  ⟨rfl, rfl⟩

/-- C9: a parse-phase failure on a transport-successful first attempt
propagates to the caller immediately: the invocation performs exactly
1 attempt, invokes no reconnection, and the propagated error is not the
`ActionException` of the transport-exhaustion path.  On the synchronous
path the propagated exception is a `TypeError` (the `Response` object is
handed to the parser, cf. C3); on the asynchronous path, which parses
the received text, a malformed body propagates as a parse error.
Neither is caught by the `except requests.exceptions.RequestException`
clause of the retry loop. -/
theorem C9_parse_failure_propagates (reg : RegistryState) (dev : Device)
    (transport : Nat → TransportOutcome)
    (atransport : Nat → AioTransportOutcome) (sess : ClientSession)
    (hreg : reg.asyncClientSession = some sess)
    (ht : transport 0 = .success .malformed)
    (hat : atransport 0 = .success .malformed) :
    Action_call dev transport =
      { result := .error .typeError, reconnects := 0, attemptsMade := 1 } ∧
    Action_call_async reg dev atransport =
      { result := .error .parseError, reconnects := 0, attemptsMade := 1 } ∧
    (∀ m, PyError.typeError ≠ PyError.actionException m ∧
          PyError.parseError ≠ PyError.actionException m) := by
  refine ⟨?_, ?_, fun m => ⟨fun hc => PyError.noConfusion hc,
    fun hc => PyError.noConfusion hc⟩⟩
  · show call_sync_loop dev transport (2 + 1) 0 0 = _
    rw [call_sync_loop_success_step 2 ht]
    decide
  · have e1 : Action_call_async reg dev atransport =
        call_async_loop dev atransport MAX_RETRIES 0 0 := by
      simp only [Action_call_async, hreg]
    rw [e1]
    show call_async_loop dev atransport (2 + 1) 0 0 = _
    rw [call_async_loop_success_step 2 hat]
    decide

/-- C9 witness: a concrete registry with an installed session, a
concrete device, and transports succeeding with a malformed body. -/
def reg_with_session : RegistryState :=
  { asyncClientSession := some (.supplied 1), internalFlag := false,
    closed := [], nextId := 0 }

/-- A requests transport whose every attempt succeeds with a malformed
body. -/
def transport_malformed : Nat → TransportOutcome :=
  fun _ => .success .malformed

/-- An aiohttp transport whose every attempt succeeds with a malformed
body. -/
def atransport_malformed : Nat → AioTransportOutcome :=
  fun _ => .success .malformed

theorem C9_witness :
    reg_with_session.asyncClientSession = some (.supplied 1) ∧
    transport_malformed 0 = .success .malformed ∧
    atransport_malformed 0 = .success .malformed ∧
    Action_call dev_enabled transport_malformed =
      { result := .error .typeError, reconnects := 0, attemptsMade := 1 } ∧
    Action_call_async reg_with_session dev_enabled atransport_malformed =
      { result := .error .parseError, reconnects := 0, attemptsMade := 1 } := by
  have h := C9_parse_failure_propagates reg_with_session dev_enabled
    transport_malformed atransport_malformed (.supplied 1) rfl rfl rfl
  exact ⟨rfl, rfl, rfl, h.1, h.2.1⟩

/-- A transport whose every aiohttp POST attempt raises
`aiohttp.ClientError` (connection refused). -/
def aio_transport_fail : Nat → AioTransportOutcome :=
  fun _ => .raised .clientError

/-- C4: evaluation of the code at the failing input.  The asynchronous
path does not follow the synchronous contract.  (1) It does not send
the rendered SOAP envelope: `Action.call` POSTs `data=kwargs`, the raw
keyword-argument mapping as form data, despite the precomputed
`text/xml` headers, so the request payloads differ for kwargs
`{a: "1"}`.  (2) Its `except requests.exceptions.RequestException`
clause holds of no exception an aiohttp POST can raise (second
conjunct), so an asynchronous transport failure propagates uncaught on
the first occurrence — one attempt, no reconnect, and an error that is
not an `ActionException` — while the synchronous path under failing
transport performs 3 attempts with 3 reconnects and raises
`ActionException`; the retry scaffolding of `Action.call` is dead code.
Only the extraction routine (applied to the received text) and the
shared-client acquisition match the claimed common contract. -/
theorem C4_async_contract_divergence :
    sync_sent_payload "SetBinaryState" "urn:Belkin:service:basicevent:1"
        [("a", "1")] ≠
      async_sent_payload [("a", "1")] ∧
    (∀ e, is_requests_RequestException e = false) ∧
    Action_call_async reg_with_session dev_enabled aio_transport_fail =
      { result := .error .aiohttpClientError, reconnects := 0,
        attemptsMade := 1 } ∧
    Action_call dev_enabled transport_all_fail =
      { result := .error (.actionException
          (max_retries_exceeded_msg dev_enabled)),
        reconnects := 3, attemptsMade := 3 } ∧
    (∀ m, PyError.aiohttpClientError ≠ PyError.actionException m) := by
  refine ⟨by decide, fun e => by cases e <;> rfl, by decide, by decide,
    fun m hc => PyError.noConfusion hc⟩

/-! ### Service construction — `Service.__init__` and `Action.__init__`

The service descriptor (the opaque object exposing `get_serviceType()`,
`get_SCPDURL()`, `get_controlURL()`) and the action descriptors produced
by `serviceParser.parseString(...).actionList` are external
collaborators, modelled as plain records.  The description fetch
(`requests.get`) is an oracle from the URL to the response, whose body
we expose only through its parse outcome (status and parsed action
list), since the source consumes it through `serviceParser` alone. -/

/-- The opaque service descriptor consumed by `Service.__init__`. -/
structure ServiceConfig where
  serviceType : String
  SCPDURL : String
  controlURL : String
deriving DecidableEq, Repr

/-- One action descriptor from the parsed description document:
`get_name()` and the argument names of `get_argumentList()` (which is
`None` when the action has no argument list). -/
structure ActionConfig where
  name : String
  argumentList : Option (List String)
deriving DecidableEq, Repr

/-- The `Action` object built by `Action.__init__`. -/
structure ActionObj where
  device : Device
  name : String
  serviceType : String
  controlURL : String
  /-- field `args`: one zero placeholder per argument name -/
  args : List (String × Nat)
  headers : List (String × String)
deriving DecidableEq, Repr

/-- Python `dict` insertion: replacing an existing key keeps its
position, a new key is appended. -/
def dictInsert {α : Type} (k : String) (v : α) :
    List (String × α) → List (String × α)
  | [] => [(k, v)]
  | (k1, v1) :: rest =>
    if k1 = k then (k1, v) :: rest else (k1, v1) :: dictInsert k v rest

/-- Embedding of `Action.__init__(device, service, action_config)`: captures the name
and the `serviceType`/`controlURL` of the owning service, fills `args` with a
zero placeholder per argument, and precomputes the transport headers. -/
def Action_init (dev : Device) (svcType ctrlURL : String)
    (cfg : ActionConfig) : ActionObj :=
  { device := dev, name := cfg.name, serviceType := svcType,
    controlURL := ctrlURL,
    args :=
      match cfg.argumentList with
      | none => []
      | some l => l.foldl (fun m a => dictInsert a 0 m) [],
    headers :=
      [("Content-Type", "text/xml"),
       ("SOAPACTION", "\"" ++ svcType ++ "#" ++ cfg.name ++ "\"")] }

/-- The `Service` object built by `Service.__init__`. -/
structure ServiceObj where
  /-- field `_base_url`: the constructor argument with trailing slashes stripped -/
  base_url : String
  name : String
  /-- field `_config`: the service descriptor -/
  config : ServiceConfig
  /-- field `actions`: the name-keyed action dict, insertion-ordered -/
  actions : List (String × ActionObj)
  /-- the attributes injected with `setattr(self, name, act)` -/
  attrs : List (String × ActionObj)
deriving DecidableEq, Repr

/-- The `controlURL` property value for a stripped base URL `b`:
`"%s/%s" % (b, config.get_controlURL().strip("/"))`. -/
def ServiceObj.controlURL_of (b : String) (cfg : ServiceConfig) : String :=
  b ++ "/" ++ pyStripSlashes cfg.controlURL

/-- The `controlURL` property. -/
def ServiceObj.controlURL (s : ServiceObj) : String :=
  ServiceObj.controlURL_of s.base_url s.config

/-- Python `str.split(sep)` with a one-character separator, on the
character list: splitting never yields an empty list. -/
def pySplitAux (sep : Char) : List Char → List Char → List String
  | [], acc => [⟨acc.reverse⟩]
  | c :: rest, acc =>
    if c = sep then ⟨acc.reverse⟩ :: pySplitAux sep rest []
    else pySplitAux sep rest (c :: acc)

/-- Python `s.split(sep)` for a one-character separator. -/
def pySplit (sep : Char) (s : String) : List String :=
  pySplitAux sep s.data []

/-- The `hostname` property: `self._base_url.split("/")[-1]`. -/
def ServiceObj.hostname (s : ServiceObj) : String :=
  (pySplit '/' s.base_url).getLastD ""

/-- The description-fetch response, exposed through the status code and
the outcome of `serviceParser.parseString(xml.content).actionList
.get_action()` on its content (an `error` covers a content on which the
parse or the attribute access fails). -/
structure FetchResponse where
  status_code : Nat
  actionList : Except Unit (List ActionConfig)
deriving DecidableEq, Repr

/-- The URL the description is fetched from:
`"%s/%s" % (base_url, service.get_SCPDURL().strip("/"))` — note the
*unstripped* constructor argument `base_url`, not `self._base_url`. -/
def Service_descriptionUrl (base_url : String) (cfg : ServiceConfig) : String :=
  base_url ++ "/" ++ pyStripSlashes cfg.SCPDURL

/-- Python `l[-2]`: `IndexError` when the list has fewer than 2 items. -/
def pyIdxNeg2 (l : List String) : Except PyError String :=
  if h : 2 ≤ l.length then .ok (l.get ⟨l.length - 2, by omega⟩)
  else .error .indexError

/-- Embedding of `Service.__init__(device, service, base_url)`.  Strips trailing
slashes into `_base_url`, derives `name` from the second-to-last
colon-delimited token of the service type, fetches the description at
the URL built from the *unstripped* `base_url`; on a status other than
200 it returns with the empty `actions` dict; otherwise it builds one
`Action` per descriptor, registers it in `actions` by name and injects
it as an attribute. -/
def Service_init (dev : Device) (cfg : ServiceConfig) (base_url : String)
    (http_get : String → FetchResponse) : Except PyError ServiceObj :=
  let b := pyRStripSlashes base_url
  match pyIdxNeg2 (pySplit ':' cfg.serviceType) with
  | .error e => .error e
  | .ok name =>
    let resp := http_get (Service_descriptionUrl base_url cfg)
    if resp.status_code ≠ 200 then
      .ok { base_url := b, name := name, config := cfg,
            actions := [], attrs := [] }
    else
      match resp.actionList with
      | .error _ => .error .parseError
      | .ok acts =>
        let pairs := acts.map fun a =>
          (a.name, Action_init dev cfg.serviceType
            (ServiceObj.controlURL_of b cfg) a)
        .ok { base_url := b, name := name, config := cfg,
              actions := pairs.foldl (fun m p => dictInsert p.1 p.2 m) [],
              attrs := pairs.foldl (fun m p => dictInsert p.1 p.2 m) [] }

/-- C7: for every description-document fetch returning a non-success
HTTP status, `Service` construction completes without raising (provided
the service-type string reaches the fetch, i.e. has at least two
colon-delimited tokens, which the name derivation on line 149 consumes
first) and the resulting `Service` has an empty `actions` mapping and no
injected action attributes; its accessors remain usable. -/
theorem C7_nonsuccess_fetch_inert_service (dev : Device) (cfg : ServiceConfig)
    (base_url : String) (http_get : String → FetchResponse)
    (hname : 2 ≤ (pySplit ':' cfg.serviceType).length)
    (hstatus : ¬ (200 ≤ (http_get (Service_descriptionUrl base_url cfg)).status_code ∧
        (http_get (Service_descriptionUrl base_url cfg)).status_code < 300)) :
    ∃ s, Service_init dev cfg base_url http_get = .ok s ∧
      s.actions = [] ∧ s.attrs = [] ∧ s.base_url = pyRStripSlashes base_url := by
  have hne : (http_get (Service_descriptionUrl base_url cfg)).status_code ≠ 200 := by
    intro he
    exact hstatus ⟨le_of_eq he.symm, by omega⟩
  obtain ⟨nm, hnm⟩ : ∃ nm, pyIdxNeg2 (pySplit ':' cfg.serviceType) = .ok nm := by
    unfold pyIdxNeg2
    rw [dif_pos hname]
    exact ⟨_, rfl⟩
  refine ⟨{ base_url := pyRStripSlashes base_url, name := nm, config := cfg,
            actions := [], attrs := [] }, ?_, rfl, rfl, rfl⟩
  simp only [Service_init, hnm]
  rw [if_pos hne]

/-- A descriptor and an oracle for the C7 witness. -/
def cfg_basicevent : ServiceConfig :=
  { serviceType := "urn:Belkin:service:basicevent:1",
    SCPDURL := "/eventservice.xml",
    controlURL := "/upnp/control/basicevent1" }

/-- A description fetch that always returns status 404. -/
def http_get_404 : String → FetchResponse :=
  fun _ => { status_code := 404, actionList := .error () }

theorem C7_witness :
    2 ≤ (pySplit ':' cfg_basicevent.serviceType).length ∧
    ¬ (200 ≤ (http_get_404 (Service_descriptionUrl "http://192.168.1.5:49153"
          cfg_basicevent)).status_code ∧
        (http_get_404 (Service_descriptionUrl "http://192.168.1.5:49153"
          cfg_basicevent)).status_code < 300) ∧
    ∃ s, Service_init dev_enabled cfg_basicevent "http://192.168.1.5:49153"
        http_get_404 = .ok s ∧
      s.actions = [] ∧ s.attrs = [] ∧
      s.base_url = pyRStripSlashes "http://192.168.1.5:49153" := by
  refine ⟨by decide, by decide, ?_⟩
  exact C7_nonsuccess_fetch_inert_service dev_enabled cfg_basicevent
    "http://192.168.1.5:49153" http_get_404 (by decide) (by decide)

/-! ### Lemmas on Python dict building for C8 -/

lemma dictInsert_not_mem {α : Type} (k : String) (v : α)
    (m : List (String × α)) (h : k ∉ m.map Prod.fst) :
    dictInsert k v m = m ++ [(k, v)] := by
  induction m with
  | nil => rfl
  | cons p rest ih =>
    obtain ⟨k1, v1⟩ := p
    simp only [List.map_cons, List.mem_cons] at h
    push_neg at h
    have hne : k1 ≠ k := fun he => h.1 he.symm
    simp only [dictInsert, if_neg hne, List.cons_append, ih h.2]

lemma foldl_dictInsert_nodup {α : Type} (ps : List (String × α)) :
    ∀ acc : List (String × α), (ps.map Prod.fst).Nodup →
    (∀ k, k ∈ ps.map Prod.fst → k ∉ acc.map Prod.fst) →
    ps.foldl (fun m p => dictInsert p.1 p.2 m) acc = acc ++ ps := by
  induction ps with
  | nil => intro acc _ _; simp
  | cons p rest ih =>
    intro acc hnd hdisj
    simp only [List.map_cons, List.nodup_cons] at hnd
    have hp : p.1 ∉ acc.map Prod.fst :=
      hdisj p.1 (by simp)
    have hdisj2 : ∀ k, k ∈ rest.map Prod.fst → k ∉ (acc ++ [p]).map Prod.fst := by
      intro k hk
      simp only [List.map_append, List.mem_append, List.map_cons, List.map_nil,
        List.mem_cons, List.not_mem_nil, or_false]
      push_neg
      refine ⟨hdisj k (by simp [hk]), ?_⟩
      intro he
      exact hnd.1 (he ▸ hk)
    rw [List.foldl_cons, dictInsert_not_mem p.1 p.2 acc hp,
      ih (acc ++ [p]) hnd.2 hdisj2]
    simp

/-- C8: for every well-formed service description whose action list has
pairwise-distinct action names (N actions) and whose fetch succeeds with
status 200, construction yields a `Service` whose `actions` dict has
exactly N entries, keyed by the descriptor names in document order,
each bound to the Action constructed from `(device, this service,
descriptor)`, and each also injected as a named attribute (the attribute
table coincides with the `actions` dict). -/
theorem C8_service_actions_mapping (dev : Device) (cfg : ServiceConfig)
    (base_url : String) (http_get : String → FetchResponse)
    (acts : List ActionConfig)
    (hname : 2 ≤ (pySplit ':' cfg.serviceType).length)
    (hfetch : http_get (Service_descriptionUrl base_url cfg) =
      { status_code := 200, actionList := .ok acts })
    (hnd : (acts.map ActionConfig.name).Nodup) :
    ∃ s, Service_init dev cfg base_url http_get = .ok s ∧
      s.actions = acts.map (fun a => (a.name,
        Action_init dev cfg.serviceType
          (ServiceObj.controlURL_of (pyRStripSlashes base_url) cfg) a)) ∧
      s.attrs = s.actions ∧
      s.actions.length = acts.length ∧
      s.actions.map Prod.fst = acts.map ActionConfig.name := by
  have hkeys :
      ((acts.map (fun a => (a.name, Action_init dev cfg.serviceType
          (ServiceObj.controlURL_of (pyRStripSlashes base_url) cfg) a))).map
        Prod.fst) = acts.map ActionConfig.name := by
    rw [List.map_map]
    rfl
  have hfold :
      (acts.map (fun a => (a.name, Action_init dev cfg.serviceType
          (ServiceObj.controlURL_of (pyRStripSlashes base_url) cfg) a))).foldl
        (fun m p => dictInsert p.1 p.2 m) [] =
      acts.map (fun a => (a.name, Action_init dev cfg.serviceType
          (ServiceObj.controlURL_of (pyRStripSlashes base_url) cfg) a)) := by
    have h2 := foldl_dictInsert_nodup
      (acts.map (fun a => (a.name, Action_init dev cfg.serviceType
          (ServiceObj.controlURL_of (pyRStripSlashes base_url) cfg) a)))
      [] (by rw [hkeys]; exact hnd) (by simp)
    simpa using h2
  obtain ⟨nm, hnm⟩ : ∃ nm, pyIdxNeg2 (pySplit ':' cfg.serviceType) = .ok nm := by
    unfold pyIdxNeg2
    rw [dif_pos hname]
    exact ⟨_, rfl⟩
  refine ⟨{ base_url := pyRStripSlashes base_url, name := nm, config := cfg,
            actions := acts.map (fun a => (a.name, Action_init dev cfg.serviceType
              (ServiceObj.controlURL_of (pyRStripSlashes base_url) cfg) a)),
            attrs := acts.map (fun a => (a.name, Action_init dev cfg.serviceType
              (ServiceObj.controlURL_of (pyRStripSlashes base_url) cfg) a)) },
    ?_, rfl, rfl, by simp, hkeys⟩
  simp only [Service_init, hnm, hfetch]
  simp [hfold]

/-- Python `rstrip("/")` is the identity exactly when the string does not end
in a slash. -/
lemma pyRStripSlashes_eq_self_iff (s : String) :
    pyRStripSlashes s = s ↔ s.data.getLast? ≠ some '/' := by
  have h1 : pyRStripSlashes s = ⟨List.rdropWhile (· = '/') s.data⟩ := rfl
  rw [h1]
  have h2 : (⟨List.rdropWhile (· = '/') s.data⟩ : String) = s ↔
      List.rdropWhile (· = '/') s.data = s.data := by
    constructor
    · intro h; exact congrArg String.data h
    · intro h; exact String.ext h
  rw [h2, List.rdropWhile_eq_self_iff]
  rcases hd : s.data with _ | ⟨c, t⟩
  · simp
  · constructor
    · intro h hc
      have hne : c :: t ≠ [] := by simp
      have := h hne
      rw [List.getLast?_eq_getLast (c :: t) hne] at hc
      simp only [Option.some_inj] at hc
      simp [hc] at this
    · intro h hl
      rw [List.getLast?_eq_getLast (c :: t) hl] at h
      simp only [ne_eq, Option.some_inj] at h
      simp [h]

/-- C10: `Service` construction fetches the description at a URL built
from the original, unstripped `base_url` argument (so a trailing slash
in `base_url` produces a double slash before the SCPD path), while the
stored `_base_url` — which the `controlURL` and `hostname` accessors
use — has trailing slashes stripped; the two URL bases differ exactly
when `base_url` ends in a slash. -/
theorem C10_description_url_unstripped (dev : Device) (cfg : ServiceConfig)
    (base_url : String) (http_get : String → FetchResponse) (s : ServiceObj)
    (hinit : Service_init dev cfg base_url http_get = .ok s) :
    Service_descriptionUrl base_url cfg =
      base_url ++ "/" ++ pyStripSlashes cfg.SCPDURL ∧
    s.base_url = pyRStripSlashes base_url ∧
    s.controlURL = pyRStripSlashes base_url ++ "/" ++ pyStripSlashes cfg.controlURL ∧
    s.hostname = (pySplit '/' (pyRStripSlashes base_url)).getLastD "" ∧
    (∀ b1, base_url = b1 ++ "/" →
      Service_descriptionUrl base_url cfg =
        b1 ++ "//" ++ pyStripSlashes cfg.SCPDURL) ∧
    (¬ pyRStripSlashes base_url = base_url ↔
      base_url.data.getLast? = some '/') := by
  have hs : s.base_url = pyRStripSlashes base_url ∧ s.config = cfg := by
    simp only [Service_init] at hinit
    rcases hsplit : pyIdxNeg2 (pySplit ':' cfg.serviceType) with e | nm <;>
      simp only [hsplit] at hinit
    · cases hinit
    · by_cases hst : (http_get (Service_descriptionUrl base_url cfg)).status_code ≠ 200
      · rw [if_pos hst] at hinit
        injection hinit with h
        subst h
        exact ⟨rfl, rfl⟩
      · rw [if_neg hst] at hinit
        rcases hal : (http_get (Service_descriptionUrl base_url cfg)).actionList
            with e2 | acts <;> simp only [hal] at hinit
        · cases hinit
        · injection hinit with h
          subst h
          exact ⟨rfl, rfl⟩
  obtain ⟨hb, hc⟩ := hs
  refine ⟨rfl, hb, ?_, ?_, ?_, ?_⟩
  · show ServiceObj.controlURL_of s.base_url s.config = _
    rw [hb, hc]
    rfl
  · show (pySplit '/' s.base_url).getLastD "" = _
    rw [hb]
  · intro b1 hb1
    subst hb1
    apply String.ext
    have h1 : ("/" : String).data = ['/'] := rfl
    have h2 : ("//" : String).data = ['/', '/'] := rfl
    simp [Service_descriptionUrl, String.data_append, h1, h2]
  · rw [pyRStripSlashes_eq_self_iff]
    exact not_not

/-- The service built in the C10 witness: `_base_url` stripped of the
trailing slash, name from the second-to-last colon token, no actions
(404 fetch). -/
def c10_service : ServiceObj :=
  { base_url := "http://192.168.1.5:49153", name := "basicevent",
    config := cfg_basicevent, actions := [], attrs := [] }

theorem C10_witness :
    Service_init dev_enabled cfg_basicevent "http://192.168.1.5:49153/"
      http_get_404 = .ok c10_service ∧
    c10_service.controlURL =
      "http://192.168.1.5:49153/upnp/control/basicevent1" ∧
    Service_descriptionUrl "http://192.168.1.5:49153/" cfg_basicevent =
      "http://192.168.1.5:49153//eventservice.xml" ∧
    ¬ pyRStripSlashes "http://192.168.1.5:49153/" =
      "http://192.168.1.5:49153/" := by
  have hinit : Service_init dev_enabled cfg_basicevent
      "http://192.168.1.5:49153/" http_get_404 = .ok c10_service := by decide
  have h := C10_description_url_unstripped dev_enabled cfg_basicevent
    "http://192.168.1.5:49153/" http_get_404 c10_service hinit
  refine ⟨hinit, ?_, ?_, ?_⟩
  · rw [h.2.2.1]; decide
  · rw [h.2.2.2.2.1 "http://192.168.1.5:49153" (by decide)]; decide
  · exact h.2.2.2.2.2.mpr (by decide)

/-- A two-action description for the C8 witness. -/
def acts_w : List ActionConfig :=
  [{ name := "GetBinaryState", argumentList := some ["BinaryState"] },
   { name := "SetBinaryState", argumentList := none }]

/-- A description fetch succeeding with status 200 and `acts_w`. -/
def http_get_200 : String → FetchResponse :=
  fun _ => { status_code := 200, actionList := .ok acts_w }

theorem C8_witness :
    2 ≤ (pySplit ':' cfg_basicevent.serviceType).length ∧
    http_get_200 (Service_descriptionUrl "http://192.168.1.5:49153"
      cfg_basicevent) = { status_code := 200, actionList := .ok acts_w } ∧
    (acts_w.map ActionConfig.name).Nodup ∧
    ∃ s, Service_init dev_enabled cfg_basicevent "http://192.168.1.5:49153"
        http_get_200 = .ok s ∧
      s.actions.length = 2 ∧
      s.actions.map Prod.fst = ["GetBinaryState", "SetBinaryState"] ∧
      s.attrs = s.actions := by
  obtain ⟨s, hok, hact, hattr, hlen, hkeys⟩ :=
    C8_service_actions_mapping dev_enabled cfg_basicevent
      "http://192.168.1.5:49153" http_get_200 acts_w (by decide) rfl (by decide)
  refine ⟨by decide, rfl, by decide, s, hok, ?_, ?_, hattr⟩
  · rw [hlen]; decide
  · rw [hkeys]; decide

/-! ### C6 — the rendered request body -/

/-- The characters strictly between the leading and trailing newline of
the substituted template: everything from `?xml` through `</s:Envelope`
(with the two keyword-argument elements in call order in the middle). -/
def c6_mid (action service : String) : List Char :=
  ("?xml version=\"1.0\" encoding=\"utf-8\"?>\n<s:Envelope xmlns:s=\"http://schemas.xmlsoap.org/soap/envelope/\" s:encodingStyle=\"http://schemas.xmlsoap.org/soap/encoding/\">\n<s:Body>\n<u:").data
    ++ action.data ++ (" xmlns:u=\"").data ++ service.data
    ++ ("\">\n<a>1</a>\n<b>2</b>\n</u:").data ++ action.data
    ++ (">\n</s:Body>\n</s:Envelope").data

/-- Python `str.strip()` on a string of the shape
`"\n" ++ (c :: m ++ [d]) ++ "\n"` with `c`, `d` non-whitespace removes
exactly the two outer newlines. -/
lemma pyStrip_wrap (m : List Char) (c d : Char)
    (hc : isPySpace c = false) (hd2 : isPySpace d = false) :
    pyStrip ⟨'\n' :: (c :: m ++ [d]) ++ ['\n']⟩ = ⟨c :: m ++ [d]⟩ := by
  have hn : isPySpace '\n' = true := rfl
  apply String.ext
  show ((List.dropWhile isPySpace ('\n' :: (c :: m ++ [d]) ++ ['\n'])).reverse.dropWhile
      isPySpace).reverse = c :: m ++ [d]
  simp [List.dropWhile, hn, hc, hd2, List.reverse_append]

set_option maxRecDepth 4000

/-- C6: for every action name and service type, the request body of a
synchronous invocation with keyword arguments `{a: "1", b: "2"}` is the
envelope template with the action name and service type substituted,
with `<a>1</a>` and `<b>2</b>` as the children of the action element in
call-argument order, trimmed of its surrounding whitespace. -/
theorem C6_rendered_request_body (action service : String) :
    sync_request_body action service [("a", "1"), ("b", "2")] =
      "<?xml version=\"1.0\" encoding=\"utf-8\"?>\n<s:Envelope xmlns:s=\"http://schemas.xmlsoap.org/soap/envelope/\" s:encodingStyle=\"http://schemas.xmlsoap.org/soap/encoding/\">\n<s:Body>\n<u:"
        ++ action ++ " xmlns:u=\"" ++ service
        ++ "\">\n<a>1</a>\n<b>2</b>\n</u:" ++ action
        ++ ">\n</s:Body>\n</s:Envelope>" := by
  have hargs : joinArgs [("a", "1"), ("b", "2")] = "<a>1</a>\n<b>2</b>" := rfl
  have e1 : ("\n<?xml version=\"1.0\" encoding=\"utf-8\"?>\n<s:Envelope xmlns:s=\"http://schemas.xmlsoap.org/soap/envelope/\" s:encodingStyle=\"http://schemas.xmlsoap.org/soap/encoding/\">\n<s:Body>\n<u:").data
      = '\n' :: '<' :: ("?xml version=\"1.0\" encoding=\"utf-8\"?>\n<s:Envelope xmlns:s=\"http://schemas.xmlsoap.org/soap/envelope/\" s:encodingStyle=\"http://schemas.xmlsoap.org/soap/encoding/\">\n<s:Body>\n<u:").data := rfl
  have e3 : ("\">\n<a>1</a>\n<b>2</b>\n</u:").data
      = ("\">\n").data ++ (("<a>1</a>\n<b>2</b>").data ++ ("\n</u:").data) := rfl
  have e4 : (">\n</s:Body>\n</s:Envelope>\n").data
      = (">\n</s:Body>\n</s:Envelope").data ++ ['>', '\n'] := rfl
  have hdata : (REQUEST_TEMPLATE_format action service "<a>1</a>\n<b>2</b>").data
      = '\n' :: ('<' :: c6_mid action service ++ ['>']) ++ ['\n'] := by
    simp [REQUEST_TEMPLATE_format, c6_mid, String.data_append, e1, e3, e4]
  have hT : REQUEST_TEMPLATE_format action service "<a>1</a>\n<b>2</b>"
      = ⟨'\n' :: ('<' :: c6_mid action service ++ ['>']) ++ ['\n']⟩ :=
    String.ext hdata
  have e5 : ("<?xml version=\"1.0\" encoding=\"utf-8\"?>\n<s:Envelope xmlns:s=\"http://schemas.xmlsoap.org/soap/envelope/\" s:encodingStyle=\"http://schemas.xmlsoap.org/soap/encoding/\">\n<s:Body>\n<u:").data
      = '<' :: ("?xml version=\"1.0\" encoding=\"utf-8\"?>\n<s:Envelope xmlns:s=\"http://schemas.xmlsoap.org/soap/envelope/\" s:encodingStyle=\"http://schemas.xmlsoap.org/soap/encoding/\">\n<s:Body>\n<u:").data := rfl
  have e6 : (">\n</s:Body>\n</s:Envelope>").data
      = (">\n</s:Body>\n</s:Envelope").data ++ ['>'] := rfl
  show pyStrip (REQUEST_TEMPLATE_format action service
      (joinArgs [("a", "1"), ("b", "2")])) = _
  rw [hargs, hT, pyStrip_wrap (c6_mid action service) '<' '>' rfl rfl]
  apply String.ext
  simp [c6_mid, String.data_append, e5, e6]

end PyWemo
